import Mathlib

/-!
rickover: status-update handler and job processor

Part 1 embeds `server/record_status.go` (`jobStatusUpdater.ServeHTTP`) and the
helper `createEmptyErr` of `server/error_responses.go`.  The handler writes to a
`http.ResponseWriter`, calls `services.HandleStatusCallback` and increments
metrics; the embedding returns these effects as a value (`Outcome`).

Part 2 models the dispatch core (`JobProcessor.DoWork`, the downstream handler
and the status reconciler), whose implementation is not among the source files.
-/

set_option autoImplicit false

namespace Rickover

/-! ## Part 1: data of the status-update handler -/

/-- Go type `newmodels.ArchivedJobStatus`, a named string type. -/
abbrev ArchivedJobStatus := String

/-- Modelled from the spec: the constant `newmodels.ArchivedJobStatusSucceeded`
(package `newmodels` is absent); the request schema gives its text as "succeeded". -/
def ArchivedJobStatusSucceeded : ArchivedJobStatus := "succeeded"

/-- Modelled from the spec: the constant `newmodels.ArchivedJobStatusFailed`
(package `newmodels` is absent); the request schema gives its text as "failed". -/
def ArchivedJobStatusFailed : ArchivedJobStatus := "failed"

/-- Go type `types.PrefixUUID`; the handler only passes it on. -/
structure PrefixUUID where
  text : String
  deriving DecidableEq, Repr

/-- Go type `rest.Error`, restricted to the fields the handlers set. -/
structure RestError where
  Title : String
  Detail : String := ""
  ID : String
  Instance : String := ""
  Status : Nat := 0
  deriving DecidableEq, Repr

/-- Source: `createEmptyErr` (server/error_responses.go, lines 50-59). -/
def createEmptyErr (field : String) (path : String) : RestError :=
  { Title := "Missing required field: " ++ field
    Detail := "Please include a " ++ field ++ " in the request body"
    ID := "missing_parameter"
    Instance := path }

/-- Body of a status-update request after JSON decoding (`JobStatusRequest`).
A nil pointer is `none`: the field was omitted or null. `Attempt` is an int16. -/
structure JobStatusRequest where
  Status : ArchivedJobStatus
  Attempt : Option Int
  Retryable : Option Bool
  deriving DecidableEq, Repr

/-- The part of `*http.Request` the handler reads: `r.Body` (nil or the bytes
to be read) and `r.URL.Path`. -/
structure Request where
  Body : Option String
  Path : String
  deriving DecidableEq, Repr

/-- Non-nil results of `services.HandleStatusCallback`, compared by identity with
the two sentinels `queued_jobs.ErrNotFound` and `services.ErrFailedDecrement`. -/
inductive CallbackError where
  | ErrNotFound
  | ErrFailedDecrement
  | other (msg : String)
  deriving DecidableEq, Repr

/-- Arguments of one call of `services.HandleStatusCallback`. -/
structure CallbackCall where
  id : PrefixUUID
  name : String
  status : ArchivedJobStatus
  attempt : Int
  retryable : Bool
  deriving DecidableEq, Repr

/-- What the handler does to the `http.ResponseWriter`: the one writing call it
makes. `viaGetId` stands for the response written inside the helper `getId`
when it reports `done`. -/
inductive Response where
  | WriteHeader (code : Nat)
  | BadRequest (e : RestError)
  | ServerError (err : CallbackError)
  | viaGetId (idStr : String)
  deriving DecidableEq, Repr

/-- HTTP status of a response: `w.WriteHeader(c)` sends `c`, `rest.BadRequest`
sends `http.StatusBadRequest`, `rest.ServerError` sends
`http.StatusInternalServerError`; the status chosen inside `getId` is unknown. -/
def Response.statusCode : Response → Option Nat
  | .WriteHeader c => some c
  | .BadRequest _ => some 400
  | .ServerError _ => some 500
  | .viaGetId _ => none

/-- Observable effects of one run of the handler. -/
structure Outcome where
  response : Response
  callbacks : List CallbackCall
  metrics : List String
  deriving DecidableEq, Repr

/-- Collaborators of the handler that live outside `server/record_status.go`:
the JSON decoder (`none` is a non-nil decode error), the route pattern
`jobIdRoute`, the helper `getId` (result id and the flag `done`), the status
reconciler, and the text of `services.ErrFailedDecrement.Error()`. -/
structure Env where
  Decode : String → Option JobStatusRequest
  FindStringSubmatch : String → List String
  getId : String → String → PrefixUUID × Bool
  HandleStatusCallback : PrefixUUID → String → ArchivedJobStatus → Int → Bool → Option CallbackError
  failedDecrementText : String

/-- Source: the tail of `ServeHTTP` after the call of
`services.HandleStatusCallback` (server/record_status.go, lines 81-104). -/
def respondToCallback (env : Env) (path : String) (call : CallbackCall)
    (err : Option CallbackError) : Outcome :=
  match err with
  | none =>
    { response := .WriteHeader 200, callbacks := [call], metrics := [] }
  | some .ErrNotFound =>
    { response := .BadRequest
        { ID := "duplicate_status_request"
          Title := "This job has already been archived, or was never queued"
          Instance := path }
      callbacks := [call]
      metrics := ["status_callback.duplicate"] }
  | some .ErrFailedDecrement =>
    { response := .BadRequest
        { ID := "decrement_failed"
          Title := env.failedDecrementText
          Instance := path }
      callbacks := [call]
      metrics := ["status_callback.failed_decrement"] }
  | some (.other msg) =>
    { response := .ServerError (.other msg)
      callbacks := [call]
      metrics := ["status_callback.error"] }

/-- Source: `jobStatusUpdater.ServeHTTP` (server/record_status.go, lines 37-105).
`Except.error` is a run-time panic (indexing the submatch slice of a path that
does not match the route). -/
def ServeHTTP (env : Env) (r : Request) : Except String Outcome :=
  match r.Body with
  | none =>
    .ok { response := .BadRequest (createEmptyErr "status" r.Path), callbacks := [], metrics := [] }
  | some body =>
    match env.Decode body with
    | none =>
      .ok { response := .BadRequest
              { ID := "invalid_request"
                Title := "Invalid request: bad JSON. Double check the types of the fields you sent" }
            callbacks := [], metrics := [] }
    | some jsr =>
      if jsr.Status = "" then
        .ok { response := .BadRequest (createEmptyErr "status" r.Path), callbacks := [], metrics := [] }
      else
        match jsr.Attempt with
        | none =>
          .ok { response := .BadRequest (createEmptyErr "attempt" r.Path), callbacks := [], metrics := [] }
        | some attempt =>
          if jsr.Status ≠ ArchivedJobStatusSucceeded ∧ jsr.Status ≠ ArchivedJobStatusFailed then
            .ok { response := .BadRequest
                    { ID := "invalid_status"
                      Title := "Invalid job status: " ++ jsr.Status
                      Instance := r.Path }
                  callbacks := [], metrics := [] }
          else
            match (env.FindStringSubmatch r.Path)[1]? with
            | none => .error "index out of range [1]"
            | some name =>
              match (env.FindStringSubmatch r.Path)[2]? with
              | none => .error "index out of range [2]"
              | some idStr =>
                match env.getId r.Path idStr with
                | (_, true) =>
                  .ok { response := .viaGetId idStr, callbacks := [], metrics := [] }
                | (id, false) =>
                  let retryable := match jsr.Retryable with
                    | none => true
                    | some b => b
                  let call : CallbackCall :=
                    { id := id, name := name, status := jsr.Status, attempt := attempt, retryable := retryable }
                  .ok (respondToCallback env r.Path call
                        (env.HandleStatusCallback id name jsr.Status attempt retryable))

/-! ## Part 2: the dispatch core

`services.JobProcessor.DoWork`, `services.DownstreamHandler` and
`services.HandleStatusCallback` are called by `test/services/process_job_test.go`
but their implementation is not among the source files. Time is a logical
clock (`Nat`); a context deadline is an absolute clock value, `none` for
`context.Background()`. -/

/-- Modelled from the spec: the two terminal statuses a status callback may
report (section 4.3, `status∈{succeeded,failed}`); the type
`newmodels.ArchivedJobStatus` is absent. -/
inductive TerminalStatus where
  | succeeded
  | failed
  deriving DecidableEq, Repr

/-- Modelled from the spec: the Queued Job record of section 3 (the type
`newmodels.QueuedJob` is absent): identifier, job type name, payload,
run-after time, optional expiry time (`types.NullTime`), attempts remaining. -/
structure QueuedJob where
  id : PrefixUUID
  name : String
  data : String
  runAfter : Nat
  expiresAt : Option Nat
  attempts : Int
  deriving DecidableEq, Repr

/-- Modelled from the spec: the Archived Job record of section 3 (the type
`newmodels.ArchivedJob` is absent): identifier, job type name, final status,
attempts consumed. -/
structure ArchivedJob where
  id : PrefixUUID
  name : String
  status : TerminalStatus
  attempts : Int
  deriving DecidableEq, Repr

/-- Modelled from the spec: the job store of sections 2 and 6 (packages
`queued_jobs` and `archived_jobs` are absent), reduced to its two tables. -/
structure Store where
  queued : List QueuedJob
  archived : List ArchivedJob
  deriving DecidableEq, Repr

/-- Modelled from the spec: `GetQueuedJob(id)` of section 6 (absent
`queued_jobs.Get`). -/
def Store.GetQueuedJob (s : Store) (id : PrefixUUID) : Option QueuedJob :=
  s.queued.find? (fun j => decide (j.id = id))

/-- Modelled from the spec: lookup of an archived job by identifier (absent
`archived_jobs.Get`, used by the tests). -/
def Store.GetArchivedJob (s : Store) (id : PrefixUUID) : Option ArchivedJob :=
  s.archived.find? (fun a => decide (a.id = id))

/-- Modelled from the spec: `UpdateAttempts(id, expectedAttempt, newAttempts)` of
section 6 (absent `queued_jobs.Decrement`): one conditional update; `none` is the
"no row affected" condition. -/
def Store.UpdateAttempts (s : Store) (id : PrefixUUID) (expected : Int) (new : Int) : Option Store :=
  if s.queued.any (fun j => decide (j.id = id ∧ j.attempts = expected)) then
    some { s with
      queued := s.queued.map (fun j =>
        if j.id = id ∧ j.attempts = expected then { j with attempts := new } else j) }
  else
    none

/-- Modelled from the spec: `MoveToArchive(id, status, consumedAttempt)` of
section 6 (absent in the sources): the job leaves the queue and enters the
archive in one step; `none` is the "no row affected" condition. -/
def Store.MoveToArchive (s : Store) (id : PrefixUUID) (status : TerminalStatus)
    (consumed : Int) : Option Store :=
  match s.GetQueuedJob id with
  | none => none
  | some j =>
    some
      { queued := s.queued.filter (fun q => decide (q.id ≠ id))
        archived := { id := id, name := j.name, status := status, attempts := consumed } :: s.archived }

/-- Modelled from the spec: the Status Reconciler `HandleStatusCallback` of
section 4.3 (package `services` is absent), steps 1 to 5, as a transition of the
store that also returns the error. -/
def HandleStatusCallback (s : Store) (id : PrefixUUID) (_name : String) (status : TerminalStatus)
    (attempt : Int) (retryable : Bool) : Store × Option CallbackError :=
  match s.GetQueuedJob id with
  | none => (s, some .ErrNotFound)
  | some j =>
    let archive (st : TerminalStatus) : Store × Option CallbackError :=
      match s.MoveToArchive id st attempt with
      | some s1 => (s1, none)
      | none => (s, some .ErrNotFound)
    match status with
    | .succeeded => archive .succeeded
    | .failed =>
      if retryable = false then archive .failed
      else if 0 < j.attempts - 1 then
        match s.UpdateAttempts id attempt (j.attempts - 1) with
        | some s1 => (s1, none)
        | none => (s, some .ErrFailedDecrement)
      else archive .failed

/-- Modelled from the spec: what a downstream worker does with one request
(sections 4.1 and 6): the connection cannot be established, or it answers with
an HTTP status (with or without a structured error body) after a latency. -/
inductive Reply where
  | refused
  | status (code : Nat) (structured : Bool) (latency : Nat)
  deriving DecidableEq, Repr

/-- Modelled from the spec: the request of section 4.1, PUT to
`<baseURL>/jobs/<typeName>/<id>` with the payload as body. -/
structure DownstreamRequest where
  method : String
  path : String
  body : String
  deriving DecidableEq, Repr

/-- Modelled from the spec: the outcomes of the classification table of
section 4.1. -/
inductive DispatchOutcome where
  | accepted
  | transient
  | permanent
  | connectionFailure
  | timeout
  deriving DecidableEq, Repr

/-- Modelled from the spec: the state `DoWork` acts on: the logical clock, the
log of requests issued to the downstream worker (oldest first, each with the
worker's reply), and the job store. -/
structure World where
  clock : Nat
  requests : List (DownstreamRequest × Reply)
  store : Store
  deriving DecidableEq, Repr

/-- Modelled from the spec: the response classification table of section 4.1. -/
def classify (code : Nat) (structured : Bool) : DispatchOutcome :=
  if code = 202 then .accepted
  else if code = 503 ∧ structured = true then .transient
  else .permanent

/-- Modelled from the spec: the request the Downstream Handler sends for a queued
job (section 4.1): PUT to `/jobs/<typeName>/<id>` below the base URL, the
payload as body. -/
def requestFor (qj : QueuedJob) : DownstreamRequest :=
  { method := "PUT", path := "/jobs/" ++ qj.name ++ "/" ++ qj.id.text, body := qj.data }

/-- Modelled from the spec: `Dispatch(ctx, queuedJob)` of section 4.1 (absent
`DownstreamHandler.Handle`). One request is issued; the worker `ds` answers the
n-th request it is sent with `ds n`. A reply that has not arrived before the
deadline is a timeout; the store is not touched. -/
def Dispatch (ds : Nat → Reply) (deadline : Option Nat) (w : World) (qj : QueuedJob) :
    World × DispatchOutcome :=
  let reply := ds w.requests.length
  let w1 : World := { w with requests := w.requests ++ [(requestFor qj, reply)] }
  match reply with
  | .refused => (w1, .connectionFailure)
  | .status code structured latency =>
    match deadline with
    | none => ({ w1 with clock := w.clock + latency }, classify code structured)
    | some d =>
      if w.clock + latency < d then
        ({ w1 with clock := w.clock + latency }, classify code structured)
      else
        ({ w1 with clock := max w.clock d }, .timeout)

/-- Modelled from the spec: the tunables of the Job Processor (section 4.2):
the base delay and the multiplier `UnavailableSleepFactor`. -/
structure Config where
  baseDelay : Nat
  UnavailableSleepFactor : Nat
  deriving DecidableEq, Repr

/-- Modelled from the spec: the backoff sleep of section 4.2, step 2, of
`base_delay × UnavailableSleepFactor`, cut short at the deadline (section 5). -/
def backoffSleep (cfg : Config) (deadline : Option Nat) (w : World) : World :=
  let wake := w.clock + cfg.baseDelay * cfg.UnavailableSleepFactor
  match deadline with
  | none => { w with clock := wake }
  | some d => { w with clock := min wake (max w.clock d) }

/-- Modelled from the spec: whether the context deadline is exhausted. -/
def deadlineExhausted (deadline : Option Nat) (w : World) : Bool :=
  match deadline with
  | none => false
  | some d => decide (d ≤ w.clock)

/-- Modelled from the spec: step 2 of `DoWork` (section 4.2): dispatch, and on
a transient outcome sleep and retry until the deadline is exhausted. `fuel`
bounds the number of dispatches; `none` means the bound was reached. A result
`transient` means retrying stopped at the deadline. -/
def dispatchLoop (cfg : Config) (ds : Nat → Reply) (deadline : Option Nat) (qj : QueuedJob) :
    Nat → World → Option (World × DispatchOutcome)
  | 0, _ => none
  | fuel + 1, w =>
    match Dispatch ds deadline w qj with
    | (w1, .transient) =>
      let w2 := backoffSleep cfg deadline w1
      if deadlineExhausted deadline w2 then some (w2, .transient)
      else dispatchLoop cfg ds deadline qj fuel w2
    | (w1, o) => some (w1, o)

/-- Modelled from the spec: the expiry check of section 4.2, step 1: the job
carries an expiry time and that time is in the past. -/
def isExpired (qj : QueuedJob) (now : Nat) : Bool :=
  match qj.expiresAt with
  | none => false
  | some t => decide (t < now)

/-- Modelled from the spec: `JobProcessor.DoWork(ctx, queuedJob)` of section 4.2
(package `services` is absent): expiry check, dispatch with retry, and for a
connection failure or permanent dispatch failure the reconciler call with
status failed and retryable false. The result is the new state and the error
returned (`none` is nil); `none` overall means `fuel` dispatches did not
suffice. -/
def DoWork (cfg : Config) (ds : Nat → Reply) (fuel : Nat) (w : World) (ctx : Option Nat)
    (qj : QueuedJob) : Option (World × Option CallbackError) :=
  if isExpired qj w.clock then some (w, none)
  else
    match dispatchLoop cfg ds ctx qj fuel w with
    | none => none
    | some (w1, .accepted) => some (w1, none)
    | some (w1, .timeout) => some (w1, none)
    | some (w1, .transient) => some (w1, none)
    | some (w1, _) =>
      match HandleStatusCallback w1.store qj.id qj.name .failed qj.attempts false with
      | (s1, some .ErrNotFound) => some ({ w1 with store := s1 }, none)
      | (s1, err) => some ({ w1 with store := s1 }, err)

/-! ## Preconditions and sample inputs -/

/-- The request passes every check that `ServeHTTP` makes before it calls
`services.HandleStatusCallback` (lines 38-73): the body is present and decodes
to `jsr`, the status is one of the two known values (hence not empty), the
attempt is present, the path matches the route with job name `name`, and
`getId` accepts the job id as `id`. -/
structure PassesValidation (env : Env) (r : Request) (jsr : JobStatusRequest) (attempt : Int)
    (name : String) (id : PrefixUUID) : Prop where
  body : ∃ b, r.Body = some b ∧ env.Decode b = some jsr
  status : jsr.Status = ArchivedJobStatusSucceeded ∨ jsr.Status = ArchivedJobStatusFailed
  attempt : jsr.Attempt = some attempt
  name : (env.FindStringSubmatch r.Path)[1]? = some name
  id : ∃ idStr, (env.FindStringSubmatch r.Path)[2]? = some idStr ∧ env.getId r.Path idStr = (id, false)

/-- The request fails one of the checks on its body: no body, a body that does
not decode, an empty status, no attempt, or an unknown status. -/
def FailsBodyChecks (env : Env) (r : Request) : Prop :=
  r.Body = none ∨
  (∃ b, r.Body = some b ∧ env.Decode b = none) ∨
  (∃ b jsr, r.Body = some b ∧ env.Decode b = some jsr ∧
    (jsr.Status = "" ∨ jsr.Attempt = none ∨
      (jsr.Status ≠ ArchivedJobStatusSucceeded ∧ jsr.Status ≠ ArchivedJobStatusFailed)))

/-- Sample path of a status-update request. -/
def samplePath : String := "/v1/jobs/echo/job_6740b44e-13b9-475d-af06-979627e0e0d6"

/-- Sample job id. -/
def sampleId : PrefixUUID := { text := "job_6740b44e-13b9-475d-af06-979627e0e0d6" }

/-- Sample decoder: a table of a few request bodies and what
`json.Decoder.Decode` makes of them. -/
def sampleDecode (body : String) : Option JobStatusRequest :=
  if body = "succeeded/0" then some { Status := "succeeded", Attempt := some 0, Retryable := none }
  else if body = "failed/3/false" then some { Status := "failed", Attempt := some 3, Retryable := some false }
  else if body = "succeeded/null" then some { Status := "succeeded", Attempt := none, Retryable := none }
  else if body = "paused/1" then some { Status := "paused", Attempt := some 1, Retryable := none }
  else if body = "paused/null" then some { Status := "paused", Attempt := none, Retryable := none }
  else if body = "empty" then some { Status := "", Attempt := none, Retryable := none }
  else none

/-- Sample environment; the status reconciler answers every call with `res`. -/
def sampleEnv (res : Option CallbackError) : Env :=
  { Decode := sampleDecode
    FindStringSubmatch := fun p => if p = samplePath then [p, "echo", sampleId.text] else []
    getId := fun _ idStr => ({ text := idStr }, decide (idStr ≠ sampleId.text))
    HandleStatusCallback := fun _ _ _ _ _ => res
    failedDecrementText := "could not decrement queued job counter; job may have been archived or attempt number may not match" }

/-- Sample environment whose status reconciler returns nil only when it is
called with exactly the arguments `expected`, and an error otherwise. -/
def strictEnv (expected : CallbackCall) : Env :=
  { Decode := sampleDecode
    FindStringSubmatch := fun p => if p = samplePath then [p, "echo", sampleId.text] else []
    getId := fun _ idStr => ({ text := idStr }, decide (idStr ≠ sampleId.text))
    HandleStatusCallback := fun id name status attempt retryable =>
      if ({ id := id, name := name, status := status, attempt := attempt,
            retryable := retryable } : CallbackCall) = expected
      then none else some (.other "unexpected arguments")
    failedDecrementText := "could not decrement queued job counter; job may have been archived or attempt number may not match" }

/-- Sample request: status succeeded, attempt 0, retryable omitted. -/
def sampleRequest : Request := { Body := some "succeeded/0", Path := samplePath }

/-- Sample decoded body of `sampleRequest`. -/
def sampleBody : JobStatusRequest := { Status := "succeeded", Attempt := some 0, Retryable := none }

/-- Sample queued job of type "echo" with one attempt left. -/
def sampleJob (expiresAt : Option Nat) : QueuedJob :=
  { id := sampleId, name := "echo", data := "\x7b\x7d", runAfter := 100, expiresAt := expiresAt,
    attempts := 1 }

/-- Sample state: clock at 100, no request issued yet, the sample job queued. -/
def sampleWorld (expiresAt : Option Nat) : World :=
  { clock := 100, requests := [], store := { queued := [sampleJob expiresAt], archived := [] } }

/-- Sample processor configuration with the backoff disabled. -/
def sampleConfig : Config := { baseDelay := 1000, UnavailableSleepFactor := 0 }

/-- Sample downstream worker that accepts every request after 10 ticks. -/
def acceptingWorker : Nat → Reply := fun _ => .status 202 false 10

/-- Sample downstream whose port refuses every connection. -/
def refusingWorker : Nat → Reply := fun _ => .refused

/-- Sample downstream worker that answers 503 with a structured error body
twice and 202 from then on, each after 5 ticks. -/
def busyTwiceWorker : Nat → Reply :=
  fun n => if n < 2 then .status 503 true 5 else .status 202 false 5

/-- Sample downstream worker that takes 70 ticks to answer. -/
def slowWorker : Nat → Reply := fun _ => .status 200 false 70

/-! ## Part 1: theorems about `ServeHTTP` -/

theorem status_ne_empty_of_known {st : ArchivedJobStatus}
    (h : st = ArchivedJobStatusSucceeded ∨ st = ArchivedJobStatusFailed) : st ≠ "" := by
  rcases h with h | h <;> subst h <;> decide

/-- A request that passes validation reaches the reconciler, and the outcome is
the one computed from the reconciler's result. -/
theorem serveHTTP_of_passes (env : Env) (r : Request) (jsr : JobStatusRequest) (attempt : Int)
    (name : String) (id : PrefixUUID) (h : PassesValidation env r jsr attempt name id) :
    ServeHTTP env r = .ok (respondToCallback env r.Path
      { id := id, name := name, status := jsr.Status, attempt := attempt,
        retryable := jsr.Retryable.getD true }
      (env.HandleStatusCallback id name jsr.Status attempt (jsr.Retryable.getD true))) := by
  obtain ⟨b, hb, hd⟩ := h.body
  obtain ⟨idStr, hi, hg⟩ := h.id
  have hne := status_ne_empty_of_known h.status
  have hknown : ¬ (jsr.Status ≠ ArchivedJobStatusSucceeded ∧ jsr.Status ≠ ArchivedJobStatusFailed) := by
    rcases h.status with hs | hs <;> simp [hs]
  have hr : (match jsr.Retryable with | none => true | some b => b) = jsr.Retryable.getD true := by
    cases jsr.Retryable <;> rfl
  unfold ServeHTTP
  simp only [hb, hd, hne, if_false, h.attempt, hknown, h.name, hi, hg, hr]

theorem sample_passes (res : Option CallbackError) :
    PassesValidation (sampleEnv res) sampleRequest sampleBody 0 "echo" sampleId :=
  { body := ⟨"succeeded/0", rfl, rfl⟩
    status := Or.inl rfl
    attempt := rfl
    name := rfl
    id := ⟨sampleId.text, rfl, rfl⟩ }

theorem serveHTTP_nil_body (env : Env) (r : Request) (h : r.Body = none) :
    ServeHTTP env r
      = .ok { response := .BadRequest (createEmptyErr "status" r.Path), callbacks := [], metrics := [] } := by
  simp [ServeHTTP, h]

theorem serveHTTP_bad_json (env : Env) (r : Request) (b : String) (hb : r.Body = some b)
    (hd : env.Decode b = none) :
    ServeHTTP env r
      = .ok { response := .BadRequest
                { ID := "invalid_request"
                  Title := "Invalid request: bad JSON. Double check the types of the fields you sent" }
              callbacks := [], metrics := [] } := by
  simp [ServeHTTP, hb, hd]

theorem serveHTTP_empty_status (env : Env) (r : Request) (b : String) (jsr : JobStatusRequest)
    (hb : r.Body = some b) (hd : env.Decode b = some jsr) (hs : jsr.Status = "") :
    ServeHTTP env r
      = .ok { response := .BadRequest (createEmptyErr "status" r.Path), callbacks := [], metrics := [] } := by
  simp [ServeHTTP, hb, hd, hs]

theorem serveHTTP_no_attempt (env : Env) (r : Request) (b : String) (jsr : JobStatusRequest)
    (hb : r.Body = some b) (hd : env.Decode b = some jsr) (hs : jsr.Status ≠ "")
    (ha : jsr.Attempt = none) :
    ServeHTTP env r
      = .ok { response := .BadRequest (createEmptyErr "attempt" r.Path), callbacks := [], metrics := [] } := by
  simp [ServeHTTP, hb, hd, hs, ha]

theorem serveHTTP_unknown_status (env : Env) (r : Request) (b : String) (jsr : JobStatusRequest)
    (a : Int) (hb : r.Body = some b) (hd : env.Decode b = some jsr) (hs : jsr.Status ≠ "")
    (ha : jsr.Attempt = some a)
    (hu : jsr.Status ≠ ArchivedJobStatusSucceeded ∧ jsr.Status ≠ ArchivedJobStatusFailed) :
    ServeHTTP env r
      = .ok { response := .BadRequest
                { ID := "invalid_status"
                  Title := "Invalid job status: " ++ jsr.Status
                  Instance := r.Path }
              callbacks := [], metrics := [] } := by
  unfold ServeHTTP
  simp only [hb, hd, hs, if_false, ha]
  rw [if_pos hu]

/-- Past the body checks, a bad-request response can only come from the two
typed results of the reconciler. -/
theorem serveHTTP_known_status_bad_request (env : Env) (r : Request) (b : String)
    (jsr : JobStatusRequest) (a : Int) (hb : r.Body = some b) (hd : env.Decode b = some jsr)
    (ha : jsr.Attempt = some a)
    (hk : jsr.Status = ArchivedJobStatusSucceeded ∨ jsr.Status = ArchivedJobStatusFailed)
    (out : Outcome) (e : RestError) (ho : ServeHTTP env r = .ok out)
    (hr : out.response = .BadRequest e) :
    e.ID = "duplicate_status_request" ∨ e.ID = "decrement_failed" := by
  have hs := status_ne_empty_of_known hk
  have hknown : ¬ (jsr.Status ≠ ArchivedJobStatusSucceeded ∧ jsr.Status ≠ ArchivedJobStatusFailed) := by
    rcases hk with hs | hs <;> simp [hs]
  unfold ServeHTTP at ho
  simp only [hb, hd, hs, if_false, ha] at ho
  rw [if_neg hknown] at ho
  split at ho
  · cases ho
  · split at ho
    · cases ho
    · split at ho
      · cases ho
        cases hr
      · cases ho
        revert hr
        generalize env.HandleStatusCallback _ _ _ _ _ = res
        intro hr
        cases res with
        | none => cases hr
        | some err =>
          cases err with
          | ErrNotFound =>
            cases hr
            exact Or.inl rfl
          | ErrFailedDecrement =>
            cases hr
            exact Or.inr rfl
          | other msg => cases hr

/-- A request that passes validation makes exactly one reconciler call, whose
arguments are those of the request. -/
theorem serveHTTP_callbacks_of_passes (env : Env) (r : Request) (jsr : JobStatusRequest)
    (attempt : Int) (name : String) (id : PrefixUUID)
    (h : PassesValidation env r jsr attempt name id) :
    ∃ out, ServeHTTP env r = .ok out ∧
      out.callbacks =
        [{ id := id, name := name, status := jsr.Status, attempt := attempt,
           retryable := jsr.Retryable.getD true }] := by
  refine ⟨_, serveHTTP_of_passes env r jsr attempt name id h, ?_⟩
  cases env.HandleStatusCallback id name jsr.Status attempt (jsr.Retryable.getD true) with
  | none => rfl
  | some err => cases err <;> rfl

/-- The response is `WriteHeader 200` exactly when the reconciler returned nil. -/
theorem respondToCallback_ok_iff (env : Env) (path : String) (call : CallbackCall)
    (res : Option CallbackError) :
    res = none ↔ (respondToCallback env path call res).response = .WriteHeader 200 := by
  cases res with
  | none => simp [respondToCallback]
  | some err => cases err <;> simp [respondToCallback]

/-- C1: for a request that passes validation, the HTTP status follows the result
of `services.HandleStatusCallback`: nil gives 200, `ErrNotFound` gives 400 (bad
request), `ErrFailedDecrement` gives 400 (bad request), every other error gives
500 (server error). -/
theorem serveHTTP_status_of_callback_result (env : Env) (r : Request) (jsr : JobStatusRequest)
    (attempt : Int) (name : String) (id : PrefixUUID)
    (h : PassesValidation env r jsr attempt name id) :
    ∃ out, ServeHTTP env r = .ok out ∧
      (env.HandleStatusCallback id name jsr.Status attempt (jsr.Retryable.getD true) = none →
        out.response = .WriteHeader 200 ∧ out.response.statusCode = some 200) ∧
      (env.HandleStatusCallback id name jsr.Status attempt (jsr.Retryable.getD true)
          = some .ErrNotFound →
        (∃ e, out.response = .BadRequest e) ∧ out.response.statusCode = some 400) ∧
      (env.HandleStatusCallback id name jsr.Status attempt (jsr.Retryable.getD true)
          = some .ErrFailedDecrement →
        (∃ e, out.response = .BadRequest e) ∧ out.response.statusCode = some 400) ∧
      (∀ err, env.HandleStatusCallback id name jsr.Status attempt (jsr.Retryable.getD true)
          = some err → err ≠ .ErrNotFound → err ≠ .ErrFailedDecrement →
        out.response = .ServerError err ∧ out.response.statusCode = some 500) := by
  refine ⟨_, serveHTTP_of_passes env r jsr attempt name id h, ?_, ?_, ?_, ?_⟩
  · intro hc
    rw [hc]
    exact ⟨rfl, rfl⟩
  · intro hc
    rw [hc]
    exact ⟨⟨_, rfl⟩, rfl⟩
  · intro hc
    rw [hc]
    exact ⟨⟨_, rfl⟩, rfl⟩
  · intro err hc hn hf
    rw [hc]
    cases err with
    | ErrNotFound => exact absurd rfl hn
    | ErrFailedDecrement => exact absurd rfl hf
    | other msg => exact ⟨rfl, rfl⟩

/-- C1 at the sample request, with a reconciler that reports a store fault. -/
theorem serveHTTP_status_of_callback_result_witness :
    PassesValidation (sampleEnv (some (.other "store fault"))) sampleRequest sampleBody 0 "echo"
        sampleId ∧
      ∃ out, ServeHTTP (sampleEnv (some (.other "store fault"))) sampleRequest = .ok out ∧
        out.response.statusCode = some 500 := by
  refine ⟨sample_passes _, ?_⟩
  obtain ⟨out, h1, _, _, _, h5⟩ :=
    serveHTTP_status_of_callback_result (sampleEnv (some (.other "store fault"))) sampleRequest
      sampleBody 0 "echo" sampleId (sample_passes _)
  exact ⟨out, h1, (h5 (.other "store fault") rfl (by decide) (by decide)).2⟩

/-- C2: a request with no body, an undecodable body, an empty status, no attempt
or an unknown status is answered with a bad-request response, and
`services.HandleStatusCallback` is not called (no metric is incremented
either). -/
theorem serveHTTP_rejects_bad_body (env : Env) (r : Request) (h : FailsBodyChecks env r) :
    ∃ e, ServeHTTP env r = .ok { response := .BadRequest e, callbacks := [], metrics := [] } ∧
      (Response.BadRequest e).statusCode = some 400 := by
  rcases h with h | ⟨b, hb, hd⟩ | ⟨b, jsr, hb, hd, hbad⟩
  · exact ⟨_, serveHTTP_nil_body env r h, rfl⟩
  · exact ⟨_, serveHTTP_bad_json env r b hb hd, rfl⟩
  · by_cases hs : jsr.Status = ""
    · exact ⟨_, serveHTTP_empty_status env r b jsr hb hd hs, rfl⟩
    · cases ha : jsr.Attempt with
      | none => exact ⟨_, serveHTTP_no_attempt env r b jsr hb hd hs ha, rfl⟩
      | some a =>
        have hu : jsr.Status ≠ ArchivedJobStatusSucceeded ∧ jsr.Status ≠ ArchivedJobStatusFailed := by
          rcases hbad with h1 | h1 | h1
          · exact absurd h1 hs
          · rw [ha] at h1
            exact absurd h1 (by simp)
          · exact h1
        exact ⟨_, serveHTTP_unknown_status env r b jsr a hb hd hs ha hu, rfl⟩

/-- C2 at a sample request whose status is neither succeeded nor failed. -/
theorem serveHTTP_rejects_bad_body_witness :
    FailsBodyChecks (sampleEnv none) { Body := some "paused/1", Path := samplePath } ∧
      ∃ e, ServeHTTP (sampleEnv none) { Body := some "paused/1", Path := samplePath }
          = .ok { response := .BadRequest e, callbacks := [], metrics := [] } ∧
        (Response.BadRequest e).statusCode = some 400 :=
  have hf : FailsBodyChecks (sampleEnv none) { Body := some "paused/1", Path := samplePath } :=
    Or.inr (Or.inr ⟨"paused/1", { Status := "paused", Attempt := some 1, Retryable := none },
      rfl, rfl, Or.inr (Or.inr ⟨by decide, by decide⟩)⟩)
  ⟨hf, serveHTTP_rejects_bad_body (sampleEnv none) { Body := some "paused/1", Path := samplePath } hf⟩

/-- C3: `ErrNotFound` is answered with error ID "duplicate_status_request" and
increments only "status_callback.duplicate"; `ErrFailedDecrement` is answered
with error ID "decrement_failed" and increments only
"status_callback.failed_decrement"; the two IDs differ, the two metric names
differ, and neither case increments "status_callback.error". -/
theorem serveHTTP_distinguishes_failed_decrement (env : Env) (r : Request)
    (jsr : JobStatusRequest) (attempt : Int) (name : String) (id : PrefixUUID)
    (h : PassesValidation env r jsr attempt name id) :
    (env.HandleStatusCallback id name jsr.Status attempt (jsr.Retryable.getD true)
        = some .ErrNotFound →
      ∃ out e, ServeHTTP env r = .ok out ∧ out.response = .BadRequest e ∧
        e.ID = "duplicate_status_request" ∧ out.metrics = ["status_callback.duplicate"] ∧
        "status_callback.error" ∉ out.metrics) ∧
    (env.HandleStatusCallback id name jsr.Status attempt (jsr.Retryable.getD true)
        = some .ErrFailedDecrement →
      ∃ out e, ServeHTTP env r = .ok out ∧ out.response = .BadRequest e ∧
        e.ID = "decrement_failed" ∧ out.metrics = ["status_callback.failed_decrement"] ∧
        "status_callback.error" ∉ out.metrics) ∧
    "duplicate_status_request" ≠ "decrement_failed" ∧
    "status_callback.duplicate" ≠ "status_callback.failed_decrement" := by
  have key := serveHTTP_of_passes env r jsr attempt name id h
  refine ⟨?_, ?_, by decide, by decide⟩
  · intro hc
    rw [hc] at key
    exact ⟨_, _, key, rfl, rfl, rfl, by simp [respondToCallback]⟩
  · intro hc
    rw [hc] at key
    exact ⟨_, _, key, rfl, rfl, rfl, by simp [respondToCallback]⟩

/-- C3 at the sample request, with a reconciler that reports `ErrFailedDecrement`. -/
theorem serveHTTP_distinguishes_failed_decrement_witness :
    PassesValidation (sampleEnv (some .ErrFailedDecrement)) sampleRequest sampleBody 0 "echo"
        sampleId ∧
      ∃ out e, ServeHTTP (sampleEnv (some .ErrFailedDecrement)) sampleRequest = .ok out ∧
        out.response = .BadRequest e ∧ e.ID = "decrement_failed" ∧
        out.metrics = ["status_callback.failed_decrement"] ∧
        "status_callback.error" ∉ out.metrics :=
  ⟨sample_passes _,
    (serveHTTP_distinguishes_failed_decrement (sampleEnv (some .ErrFailedDecrement)) sampleRequest
      sampleBody 0 "echo" sampleId (sample_passes _)).2.1 rfl⟩

/-- C4: a request that passes validation makes exactly one call of
`services.HandleStatusCallback`, with the status and attempt of the request and
with retryable true when the field is omitted or null, the supplied value
otherwise. The outcome is the one computed from the result the reconciler
returns at exactly these arguments: the handler answers `WriteHeader 200` if and
only if that call returned nil. -/
theorem serveHTTP_calls_reconciler_once (env : Env) (r : Request) (jsr : JobStatusRequest)
    (attempt : Int) (name : String) (id : PrefixUUID)
    (h : PassesValidation env r jsr attempt name id) :
    ∃ out retryable,
      (jsr.Retryable = none → retryable = true) ∧
      (∀ b, jsr.Retryable = some b → retryable = b) ∧
      jsr.Attempt = some attempt ∧
      ServeHTTP env r = .ok out ∧
      out = respondToCallback env r.Path
        { id := id, name := name, status := jsr.Status, attempt := attempt,
          retryable := retryable }
        (env.HandleStatusCallback id name jsr.Status attempt retryable) ∧
      out.callbacks =
        [{ id := id, name := name, status := jsr.Status, attempt := attempt,
           retryable := retryable }] ∧
      (env.HandleStatusCallback id name jsr.Status attempt retryable = none ↔
        out.response = .WriteHeader 200) := by
  obtain ⟨out, ho, hc⟩ := serveHTTP_callbacks_of_passes env r jsr attempt name id h
  have hk := serveHTTP_of_passes env r jsr attempt name id h
  have heq : out = respondToCallback env r.Path
      { id := id, name := name, status := jsr.Status, attempt := attempt,
        retryable := jsr.Retryable.getD true }
      (env.HandleStatusCallback id name jsr.Status attempt (jsr.Retryable.getD true)) := by
    rw [ho] at hk
    exact Except.ok.inj hk
  refine ⟨out, jsr.Retryable.getD true, ?_, ?_, h.attempt, ho, heq, hc, ?_⟩
  · intro hn
    rw [hn]
    rfl
  · intro b hb
    rw [hb]
    rfl
  · rw [heq]
    exact respondToCallback_ok_iff env r.Path _ _

/-- C4 at a sample request that sets retryable to false explicitly, with a
reconciler that returns nil only for the arguments echo, failed, 3, false: the
handler answers 200, so these are the arguments the reconciler received. -/
theorem serveHTTP_calls_reconciler_once_witness :
    PassesValidation
        (strictEnv { id := sampleId, name := "echo", status := "failed", attempt := 3,
                     retryable := false })
        { Body := some "failed/3/false", Path := samplePath }
        { Status := "failed", Attempt := some 3, Retryable := some false } 3 "echo" sampleId ∧
      ∃ out,
        ServeHTTP
            (strictEnv { id := sampleId, name := "echo", status := "failed", attempt := 3,
                         retryable := false })
            { Body := some "failed/3/false", Path := samplePath }
          = .ok out ∧
        out.callbacks =
          [{ id := sampleId, name := "echo", status := "failed", attempt := 3,
             retryable := false }] ∧
        out.response = .WriteHeader 200 := by
  have hp : PassesValidation
      (strictEnv { id := sampleId, name := "echo", status := "failed", attempt := 3,
                   retryable := false })
      { Body := some "failed/3/false", Path := samplePath }
      { Status := "failed", Attempt := some 3, Retryable := some false } 3 "echo" sampleId :=
    { body := ⟨"failed/3/false", rfl, rfl⟩
      status := Or.inr rfl
      attempt := rfl
      name := rfl
      id := ⟨sampleId.text, rfl, rfl⟩ }
  refine ⟨hp, ?_⟩
  obtain ⟨out, rb, _, h2, _, h4, _, h6, h7⟩ :=
    serveHTTP_calls_reconciler_once
      (strictEnv { id := sampleId, name := "echo", status := "failed", attempt := 3,
                   retryable := false })
      { Body := some "failed/3/false", Path := samplePath }
      { Status := "failed", Attempt := some 3, Retryable := some false } 3 "echo" sampleId hp
  have hrb : rb = false := h2 false rfl
  subst hrb
  exact ⟨out, h4, h6, h7.mp rfl⟩

/-- C5: the attempt field tells an omitted or null value from 0. A request that
passes validation with attempt 0 reaches `services.HandleStatusCallback` with
attempt 0: the outcome is the one computed from the result the reconciler
returns at attempt 0 (the handler answers `WriteHeader 200` if and only if that
call returned nil), and this is the only call. A decodable request with a known
status and no attempt is rejected as a bad request with
`createEmptyErr "attempt" path`, whose ID is "missing_parameter" and whose title
is "Missing required field: attempt", and the reconciler is not called. -/
theorem serveHTTP_attempt_zero_vs_missing (env : Env) (r : Request) :
    (∀ jsr name id, PassesValidation env r jsr 0 name id →
      ∃ out, ServeHTTP env r = .ok out ∧
        out = respondToCallback env r.Path
          { id := id, name := name, status := jsr.Status, attempt := 0,
            retryable := jsr.Retryable.getD true }
          (env.HandleStatusCallback id name jsr.Status 0 (jsr.Retryable.getD true)) ∧
        out.callbacks =
          [{ id := id, name := name, status := jsr.Status, attempt := 0,
             retryable := jsr.Retryable.getD true }] ∧
        (env.HandleStatusCallback id name jsr.Status 0 (jsr.Retryable.getD true) = none ↔
          out.response = .WriteHeader 200)) ∧
    (∀ b jsr, r.Body = some b → env.Decode b = some jsr →
      (jsr.Status = ArchivedJobStatusSucceeded ∨ jsr.Status = ArchivedJobStatusFailed) →
      jsr.Attempt = none →
      ServeHTTP env r
          = .ok { response := .BadRequest (createEmptyErr "attempt" r.Path)
                  callbacks := [], metrics := [] } ∧
        (Response.BadRequest (createEmptyErr "attempt" r.Path)).statusCode = some 400 ∧
        (createEmptyErr "attempt" r.Path).ID = "missing_parameter" ∧
        (createEmptyErr "attempt" r.Path).Title = "Missing required field: attempt") := by
  constructor
  · intro jsr name id h
    obtain ⟨out, h1, h2⟩ := serveHTTP_callbacks_of_passes env r jsr 0 name id h
    have hk := serveHTTP_of_passes env r jsr 0 name id h
    have heq : out = respondToCallback env r.Path
        { id := id, name := name, status := jsr.Status, attempt := 0,
          retryable := jsr.Retryable.getD true }
        (env.HandleStatusCallback id name jsr.Status 0 (jsr.Retryable.getD true)) := by
      rw [h1] at hk
      exact Except.ok.inj hk
    refine ⟨out, h1, heq, h2, ?_⟩
    rw [heq]
    exact respondToCallback_ok_iff env r.Path _ _
  · intro b jsr hb hd hk ha
    exact ⟨serveHTTP_no_attempt env r b jsr hb hd (status_ne_empty_of_known hk) ha, rfl, rfl, rfl⟩

/-- C5 at two sample requests with status succeeded. With attempt 0 and a
reconciler that returns nil only for the arguments echo, succeeded, 0, true, the
handler answers 200, so the reconciler received attempt 0; without an attempt
the request is rejected. -/
theorem serveHTTP_attempt_zero_vs_missing_witness :
    (∃ out,
      ServeHTTP
          (strictEnv { id := sampleId, name := "echo", status := "succeeded", attempt := 0,
                       retryable := true })
          sampleRequest = .ok out ∧
      out.callbacks =
        [{ id := sampleId, name := "echo", status := "succeeded", attempt := 0,
           retryable := true }] ∧
      out.response = .WriteHeader 200) ∧
    ServeHTTP (sampleEnv none) { Body := some "succeeded/null", Path := samplePath }
      = .ok { response := .BadRequest (createEmptyErr "attempt" samplePath)
              callbacks := [], metrics := [] } := by
  have hp : PassesValidation
      (strictEnv { id := sampleId, name := "echo", status := "succeeded", attempt := 0,
                   retryable := true })
      sampleRequest sampleBody 0 "echo" sampleId :=
    { body := ⟨"succeeded/0", rfl, rfl⟩
      status := Or.inl rfl
      attempt := rfl
      name := rfl
      id := ⟨sampleId.text, rfl, rfl⟩ }
  constructor
  · obtain ⟨out, h1, _, h3, h4⟩ :=
      (serveHTTP_attempt_zero_vs_missing
        (strictEnv { id := sampleId, name := "echo", status := "succeeded", attempt := 0,
                     retryable := true })
        sampleRequest).1 sampleBody "echo" sampleId hp
    exact ⟨out, h1, h3, h4.mp rfl⟩
  · exact ((serveHTTP_attempt_zero_vs_missing (sampleEnv none)
      { Body := some "succeeded/null", Path := samplePath }).2 "succeeded/null"
      { Status := "succeeded", Attempt := none, Retryable := none } rfl rfl (Or.inl rfl) rfl).1

/-- C10: the field checks run in the order status missing, attempt missing,
status unknown, and only the first failure is reported. For a decodable request:
an empty status with no attempt gives the missing_parameter error for "status";
a non-empty unknown status with no attempt gives the missing_parameter error for
"attempt", not "invalid_status"; and the handler answers with "invalid_status"
exactly when the status is non-empty, the attempt is present and the status is
neither "succeeded" nor "failed". -/
theorem serveHTTP_check_order (env : Env) (r : Request) (b : String) (jsr : JobStatusRequest)
    (hb : r.Body = some b) (hd : env.Decode b = some jsr) :
    (jsr.Status = "" → jsr.Attempt = none →
      ServeHTTP env r
        = .ok { response := .BadRequest (createEmptyErr "status" r.Path)
                callbacks := [], metrics := [] }) ∧
    (jsr.Status ≠ "" →
      (jsr.Status ≠ ArchivedJobStatusSucceeded ∧ jsr.Status ≠ ArchivedJobStatusFailed) →
      jsr.Attempt = none →
      ServeHTTP env r
          = .ok { response := .BadRequest (createEmptyErr "attempt" r.Path)
                  callbacks := [], metrics := [] } ∧
        (createEmptyErr "attempt" r.Path).ID = "missing_parameter" ∧
        (createEmptyErr "attempt" r.Path).ID ≠ "invalid_status") ∧
    ((∃ out e, ServeHTTP env r = .ok out ∧ out.response = .BadRequest e ∧
        e.ID = "invalid_status") ↔
      (jsr.Status ≠ "" ∧ jsr.Attempt ≠ none ∧
        jsr.Status ≠ ArchivedJobStatusSucceeded ∧ jsr.Status ≠ ArchivedJobStatusFailed)) := by
  refine ⟨?_, ?_, ?_, ?_⟩
  · intro hs _
    exact serveHTTP_empty_status env r b jsr hb hd hs
  · intro hs _ ha
    exact ⟨serveHTTP_no_attempt env r b jsr hb hd hs ha, rfl,
      show "missing_parameter" ≠ "invalid_status" by decide⟩
  · rintro ⟨out, e, ho, hr, hid⟩
    by_cases hs : jsr.Status = ""
    · rw [serveHTTP_empty_status env r b jsr hb hd hs] at ho
      cases ho
      cases hr
      exact absurd hid (show "missing_parameter" ≠ "invalid_status" by decide)
    · cases ha : jsr.Attempt with
      | none =>
        rw [serveHTTP_no_attempt env r b jsr hb hd hs ha] at ho
        cases ho
        cases hr
        exact absurd hid (show "missing_parameter" ≠ "invalid_status" by decide)
      | some a =>
        refine ⟨hs, by simp, ?_⟩
        by_contra hu
        have hk : jsr.Status = ArchivedJobStatusSucceeded ∨ jsr.Status = ArchivedJobStatusFailed := by
          by_cases h1 : jsr.Status = ArchivedJobStatusSucceeded
          · exact Or.inl h1
          · by_cases h2 : jsr.Status = ArchivedJobStatusFailed
            · exact Or.inr h2
            · exact absurd ⟨h1, h2⟩ hu
        rcases serveHTTP_known_status_bad_request env r b jsr a hb hd ha hk out e ho hr with h | h
        · rw [h] at hid
          exact absurd hid (by decide)
        · rw [h] at hid
          exact absurd hid (by decide)
  · rintro ⟨hs, ha, hu⟩
    cases hat : jsr.Attempt with
    | none => exact absurd hat ha
    | some a =>
      exact ⟨_, _, serveHTTP_unknown_status env r b jsr a hb hd hs hat hu, rfl, rfl⟩

/-- C10 at a sample request with the unknown status "paused" and no attempt: the
missing attempt is reported, not the unknown status. -/
theorem serveHTTP_check_order_witness :
    ServeHTTP (sampleEnv none) { Body := some "paused/null", Path := samplePath }
        = .ok { response := .BadRequest (createEmptyErr "attempt" samplePath)
                callbacks := [], metrics := [] } ∧
      ¬ (∃ out e, ServeHTTP (sampleEnv none) { Body := some "paused/null", Path := samplePath }
          = .ok out ∧ out.response = .BadRequest e ∧ e.ID = "invalid_status") := by
  have h := serveHTTP_check_order (sampleEnv none)
    { Body := some "paused/null", Path := samplePath } "paused/null"
    { Status := "paused", Attempt := none, Retryable := none } rfl rfl
  refine ⟨(h.2.1 (by decide) ⟨by decide, by decide⟩ rfl).1, ?_⟩
  intro hex
  exact (h.2.2.mp hex).2.1 rfl

/-! ## Part 2: theorems about the dispatch core -/

theorem getQueuedJob_of_mem (s : Store) (qj : QueuedJob) (h : qj ∈ s.queued) :
    ∃ j, s.GetQueuedJob qj.id = some j := by
  have hs : (s.queued.find? (fun j => decide (j.id = qj.id))).isSome = true :=
    List.find?_isSome.mpr ⟨qj, h, by simp⟩
  exact Option.isSome_iff_exists.mp hs

theorem getQueuedJob_after_archive (s : Store) (id : PrefixUUID) (a : ArchivedJob) :
    Store.GetQueuedJob
      { queued := s.queued.filter (fun q => decide (q.id ≠ id)), archived := a :: s.archived } id
      = none := by
  unfold Store.GetQueuedJob
  rw [List.find?_eq_none]
  intro x hx
  have hne := (List.mem_filter.mp hx).2
  simpa using hne

theorem getArchivedJob_after_archive (s : Store) (id : PrefixUUID) (name : String)
    (st : TerminalStatus) (n : Int) (q : List QueuedJob) :
    Store.GetArchivedJob
      { queued := q, archived := { id := id, name := name, status := st, attempts := n } :: s.archived }
      id
      = some { id := id, name := name, status := st, attempts := n } := by
  simp [Store.GetArchivedJob]

/-- A terminal report (succeeded, or failed and not retryable) for a queued job
moves it from the queue to the archive with the reported status. -/
theorem handleStatusCallback_terminal (s : Store) (id : PrefixUUID) (name : String)
    (st : TerminalStatus) (attempt : Int) (retryable : Bool) (j : QueuedJob)
    (hq : s.GetQueuedJob id = some j) (ht : st = .succeeded ∨ retryable = false) :
    ∃ s1, HandleStatusCallback s id name st attempt retryable = (s1, none) ∧
      s1.GetArchivedJob id = some { id := id, name := j.name, status := st, attempts := attempt } ∧
      s1.GetQueuedJob id = none := by
  refine ⟨{ queued := s.queued.filter (fun q => decide (q.id ≠ id)),
            archived := { id := id, name := j.name, status := st, attempts := attempt } :: s.archived },
    ?_, getArchivedJob_after_archive s id j.name st attempt _, getQueuedJob_after_archive s id _⟩
  rcases ht with ht | ht
  · subst ht
    simp [HandleStatusCallback, hq, Store.MoveToArchive]
  · subst ht
    cases st <;> simp [HandleStatusCallback, hq, Store.MoveToArchive]

theorem dispatch_refused (ds : Nat → Reply) (deadline : Option Nat) (w : World) (qj : QueuedJob)
    (hr : ds w.requests.length = .refused) :
    Dispatch ds deadline w qj
      = ({ w with requests := w.requests ++ [(requestFor qj, .refused)] }, .connectionFailure) := by
  simp [Dispatch, hr]

theorem dispatch_in_time (ds : Nat → Reply) (deadline : Option Nat) (w : World) (qj : QueuedJob)
    (code : Nat) (structured : Bool) (latency : Nat)
    (hr : ds w.requests.length = .status code structured latency)
    (hd : ∀ d, deadline = some d → w.clock + latency < d) :
    Dispatch ds deadline w qj
      = ({ clock := w.clock + latency
           requests := w.requests ++ [(requestFor qj, .status code structured latency)]
           store := w.store }, classify code structured) := by
  cases deadline with
  | none => simp [Dispatch, hr]
  | some d => simp [Dispatch, hr, hd d rfl]

theorem dispatch_timeout (ds : Nat → Reply) (d : Nat) (w : World) (qj : QueuedJob)
    (code : Nat) (structured : Bool) (latency : Nat)
    (hr : ds w.requests.length = .status code structured latency)
    (hd : d ≤ w.clock + latency) :
    Dispatch ds (some d) w qj
      = ({ clock := max w.clock d
           requests := w.requests ++ [(requestFor qj, .status code structured latency)]
           store := w.store }, .timeout) := by
  simp [Dispatch, hr, Nat.not_lt.mpr hd]

/-- One round of the retry loop on a 503 with a structured body, backoff
disabled, deadline not reached. -/
theorem dispatchLoop_transient (cfg : Config) (ds : Nat → Reply) (deadline : Option Nat)
    (qj : QueuedJob) (fuel : Nat) (w : World) (latency : Nat)
    (hz : cfg.UnavailableSleepFactor = 0)
    (hr : ds w.requests.length = .status 503 true latency)
    (hd : ∀ d, deadline = some d → w.clock + latency < d) :
    dispatchLoop cfg ds deadline qj (fuel + 1) w
      = dispatchLoop cfg ds deadline qj fuel
          { clock := w.clock + latency
            requests := w.requests ++ [(requestFor qj, .status 503 true latency)]
            store := w.store } := by
  have hcl : classify 503 true = .transient := by decide
  cases deadline with
  | none =>
    simp [dispatchLoop, dispatch_in_time ds none w qj 503 true latency hr hd, hcl, backoffSleep,
      deadlineExhausted, hz]
  | some d =>
    have hlt := hd d rfl
    have hmin : min (w.clock + latency) (max (w.clock + latency) d) = w.clock + latency := by
      omega
    have hnot : ¬ d ≤ w.clock + latency := by omega
    simp [dispatchLoop, dispatch_in_time ds (some d) w qj 503 true latency hr hd, hcl,
      backoffSleep, deadlineExhausted, hz, hmin, hnot]

/-- The retry loop ends at a 202 that arrives before the deadline. -/
theorem dispatchLoop_accepted (cfg : Config) (ds : Nat → Reply) (deadline : Option Nat)
    (qj : QueuedJob) (fuel : Nat) (w : World) (structured : Bool) (latency : Nat)
    (hr : ds w.requests.length = .status 202 structured latency)
    (hd : ∀ d, deadline = some d → w.clock + latency < d) :
    dispatchLoop cfg ds deadline qj (fuel + 1) w
      = some ({ clock := w.clock + latency
                requests := w.requests ++ [(requestFor qj, .status 202 structured latency)]
                store := w.store }, .accepted) := by
  have hcl : classify 202 structured = .accepted := by simp [classify]
  simp [dispatchLoop, dispatch_in_time ds deadline w qj 202 structured latency hr hd, hcl]

/-- C6: a queued job whose expiry time is set and lies in the past at the time of
the call is not dispatched: `DoWork` returns a nil error for every fuel and
leaves the state, and so the log of requests issued to the downstream worker,
as it was. -/
theorem doWork_skips_expired_job (cfg : Config) (ds : Nat → Reply) (fuel : Nat) (w : World)
    (ctx : Option Nat) (qj : QueuedJob) (t : Nat) (hv : qj.expiresAt = some t)
    (hp : t < w.clock) :
    DoWork cfg ds fuel w ctx qj = some (w, none) ∧
      ∀ w1 err, DoWork cfg ds fuel w ctx qj = some (w1, err) →
        err = none ∧ w1.requests = w.requests := by
  have he : isExpired qj w.clock = true := by simp [isExpired, hv, hp]
  have hw : DoWork cfg ds fuel w ctx qj = some (w, none) := by simp [DoWork, he]
  refine ⟨hw, ?_⟩
  intro w1 err h
  rw [hw] at h
  cases h
  exact ⟨rfl, rfl⟩

/-- C6 at the sample job with expiry 95 and the clock at 100, against a worker
that would accept the request. -/
theorem doWork_skips_expired_job_witness :
    (95 : Nat) < (sampleWorld (some 95)).clock ∧
      DoWork sampleConfig acceptingWorker 5 (sampleWorld (some 95)) none (sampleJob (some 95))
        = some (sampleWorld (some 95), none) :=
  ⟨by decide,
    (doWork_skips_expired_job sampleConfig acceptingWorker 5 (sampleWorld (some 95)) none
      (sampleJob (some 95)) 95 rfl (by decide)).1⟩

/-- C7: for a queued, non-expired job whose downstream refuses the connection,
`DoWork` returns a nil error (one dispatch suffices), and afterwards the job is
in the archive with status failed and no longer in the queue. -/
theorem doWork_connection_refused_archives_failed (cfg : Config) (ds : Nat → Reply) (fuel : Nat)
    (w : World) (ctx : Option Nat) (qj : QueuedJob)
    (hq : qj ∈ w.store.queued) (hne : isExpired qj w.clock = false)
    (hr : ds w.requests.length = .refused) (hf : 0 < fuel) :
    ∃ w1, DoWork cfg ds fuel w ctx qj = some (w1, none) ∧
      (∃ aj, w1.store.GetArchivedJob qj.id = some aj ∧ aj ∈ w1.store.archived ∧
        aj.status = .failed) ∧
      w1.store.GetQueuedJob qj.id = none ∧
      w1.requests = w.requests ++ [(requestFor qj, .refused)] := by
  obtain ⟨k, rfl⟩ : ∃ k, fuel = k + 1 := ⟨fuel - 1, by omega⟩
  obtain ⟨j, hj⟩ := getQueuedJob_of_mem w.store qj hq
  obtain ⟨s1, hcb, harch, hqueue⟩ :=
    handleStatusCallback_terminal w.store qj.id qj.name .failed qj.attempts false j hj (Or.inr rfl)
  refine ⟨{ clock := w.clock, requests := w.requests ++ [(requestFor qj, .refused)], store := s1 },
    ?_, ⟨_, harch, ?_, rfl⟩, hqueue, rfl⟩
  · simp [DoWork, hne, dispatchLoop, dispatch_refused ds ctx w qj hr, hcb]
  · exact List.mem_of_find?_eq_some harch

/-- C7 at the sample job, against a port that refuses every connection. -/
theorem doWork_connection_refused_archives_failed_witness :
    sampleJob none ∈ (sampleWorld none).store.queued ∧
      ∃ w1, DoWork sampleConfig refusingWorker 1 (sampleWorld none) none (sampleJob none)
          = some (w1, none) ∧
        (∃ aj, w1.store.GetArchivedJob sampleId = some aj ∧ aj.status = .failed) ∧
        w1.store.GetQueuedJob sampleId = none := by
  have hm : sampleJob none ∈ (sampleWorld none).store.queued := by simp [sampleWorld]
  refine ⟨hm, ?_⟩
  obtain ⟨w1, h1, ⟨aj, h2, _, h3⟩, h4, _⟩ :=
    doWork_connection_refused_archives_failed sampleConfig refusingWorker 1 (sampleWorld none) none
      (sampleJob none) hm rfl rfl (by decide)
  exact ⟨w1, h1, ⟨aj, h2, h3⟩, h4⟩

/-- C8: for a non-expired job, with `UnavailableSleepFactor` 0, a deadline (if
any) that lies after the three replies, and a downstream that answers 503 with
a structured error body twice and then 202, `DoWork` retries after each 503 and
returns a nil error once three dispatches are allowed; the downstream has then
received exactly three more requests, answered 503, 503, 202 in this order,
and the store is untouched. -/
theorem doWork_retries_503_twice (cfg : Config) (ds : Nat → Reply) (fuel : Nat) (w : World)
    (ctx : Option Nat) (qj : QueuedJob) (l0 l1 l2 : Nat) (structured : Bool)
    (hne : isExpired qj w.clock = false) (hz : cfg.UnavailableSleepFactor = 0)
    (h0 : ds w.requests.length = .status 503 true l0)
    (h1 : ds (w.requests.length + 1) = .status 503 true l1)
    (h2 : ds (w.requests.length + 2) = .status 202 structured l2)
    (hd : ∀ d, ctx = some d → w.clock + l0 + l1 + l2 < d) (hf : 3 ≤ fuel) :
    ∃ w1, DoWork cfg ds fuel w ctx qj = some (w1, none) ∧
      w1.requests = w.requests ++
        [(requestFor qj, .status 503 true l0), (requestFor qj, .status 503 true l1),
         (requestFor qj, .status 202 structured l2)] ∧
      w1.requests.length = w.requests.length + 3 ∧
      w1.store = w.store := by
  obtain ⟨k, rfl⟩ : ∃ k, fuel = k + 1 + 1 + 1 := ⟨fuel - 3, by omega⟩
  have e1 := dispatchLoop_transient cfg ds ctx qj (k + 1 + 1) w l0 hz h0
    (fun d hd1 => by have := hd d hd1; omega)
  have e2 := dispatchLoop_transient cfg ds ctx qj (k + 1)
    { clock := w.clock + l0
      requests := w.requests ++ [(requestFor qj, .status 503 true l0)]
      store := w.store } l1 hz (by simpa using h1)
    (fun d hd1 => by have := hd d hd1; show w.clock + l0 + l1 < d; omega)
  have e3 := dispatchLoop_accepted cfg ds ctx qj k
    { clock := w.clock + l0 + l1
      requests := w.requests ++ [(requestFor qj, .status 503 true l0)] ++
        [(requestFor qj, .status 503 true l1)]
      store := w.store } structured l2 (by simpa using h2)
    (fun d hd1 => hd d hd1)
  refine ⟨{ clock := w.clock + l0 + l1 + l2
            requests := w.requests ++ [(requestFor qj, .status 503 true l0)] ++
              [(requestFor qj, .status 503 true l1)] ++
              [(requestFor qj, .status 202 structured l2)]
            store := w.store }, ?_, by simp, by simp, rfl⟩
  unfold DoWork
  rw [e1, e2, e3]
  simp [hne]

/-- C8 at the sample job with no deadline, against the worker that is busy
twice. -/
theorem doWork_retries_503_twice_witness :
    ∃ w1, DoWork sampleConfig busyTwiceWorker 3 (sampleWorld none) none (sampleJob none)
        = some (w1, none) ∧
      w1.requests =
        [(requestFor (sampleJob none), .status 503 true 5),
         (requestFor (sampleJob none), .status 503 true 5),
         (requestFor (sampleJob none), .status 202 false 5)] ∧
      w1.store = (sampleWorld none).store := by
  obtain ⟨w1, h1, h2, _, h4⟩ :=
    doWork_retries_503_twice sampleConfig busyTwiceWorker 3 (sampleWorld none) none (sampleJob none)
      5 5 5 false rfl rfl rfl rfl rfl (fun d hd => by cases hd) (by decide)
  exact ⟨w1, h1, by simpa [sampleWorld] using h2, h4⟩

/-- C9: for a queued, non-expired, not yet archived job and a context deadline
shorter than the latency of the downstream's reply, `DoWork` returns a nil error
(one dispatch suffices) and leaves the store as it was: the job is still in the
queue and not in the archive. A status callback that then reports succeeded
returns nil and the job ends in the archive with status succeeded. -/
theorem doWork_timeout_keeps_job_queued (cfg : Config) (ds : Nat → Reply) (fuel : Nat)
    (w : World) (d : Nat) (qj : QueuedJob) (code : Nat) (structured : Bool) (latency : Nat)
    (hq : qj ∈ w.store.queued) (hna : w.store.GetArchivedJob qj.id = none)
    (hne : isExpired qj w.clock = false)
    (hr : ds w.requests.length = .status code structured latency)
    (hshort : d < w.clock + latency) (hf : 0 < fuel) :
    ∃ w1, DoWork cfg ds fuel w (some d) qj = some (w1, none) ∧
      w1.store = w.store ∧
      (∃ j, w1.store.GetQueuedJob qj.id = some j) ∧
      w1.store.GetArchivedJob qj.id = none ∧
      ∀ attempt retryable, ∃ s2,
        HandleStatusCallback w1.store qj.id qj.name .succeeded attempt retryable = (s2, none) ∧
        (∃ aj, s2.GetArchivedJob qj.id = some aj ∧ aj.status = .succeeded) ∧
        s2.GetQueuedJob qj.id = none := by
  obtain ⟨k, rfl⟩ : ∃ k, fuel = k + 1 := ⟨fuel - 1, by omega⟩
  obtain ⟨j, hj⟩ := getQueuedJob_of_mem w.store qj hq
  refine ⟨{ clock := max w.clock d
            requests := w.requests ++ [(requestFor qj, .status code structured latency)]
            store := w.store }, ?_, rfl, ⟨j, hj⟩, hna, ?_⟩
  · simp [DoWork, hne, dispatchLoop,
      dispatch_timeout ds d w qj code structured latency hr (Nat.le_of_lt hshort)]
  · intro attempt retryable
    obtain ⟨s2, hcb, harch, hqueue⟩ :=
      handleStatusCallback_terminal w.store qj.id qj.name .succeeded attempt retryable j hj
        (Or.inl rfl)
    exact ⟨s2, hcb, ⟨_, harch, rfl⟩, hqueue⟩

/-- C9 at the sample job: deadline 40 ticks after the call, reply after 70. -/
theorem doWork_timeout_keeps_job_queued_witness :
    sampleJob none ∈ (sampleWorld none).store.queued ∧
      (140 : Nat) < (sampleWorld none).clock + 70 ∧
      ∃ w1, DoWork sampleConfig slowWorker 1 (sampleWorld none) (some 140) (sampleJob none)
          = some (w1, none) ∧
        w1.store = (sampleWorld none).store ∧
        ∃ s2, HandleStatusCallback w1.store sampleId "echo" .succeeded 1 true = (s2, none) ∧
          (∃ aj, s2.GetArchivedJob sampleId = some aj ∧ aj.status = .succeeded) := by
  have hm : sampleJob none ∈ (sampleWorld none).store.queued := by simp [sampleWorld]
  refine ⟨hm, by decide, ?_⟩
  obtain ⟨w1, h1, h2, _, _, h5⟩ :=
    doWork_timeout_keeps_job_queued sampleConfig slowWorker 1 (sampleWorld none) 140
      (sampleJob none) 200 false 70 hm rfl rfl rfl (by decide) (by decide)
  obtain ⟨s2, h6, h7, _⟩ := h5 1 true
  exact ⟨w1, h1, h2, s2, h6, h7⟩

end Rickover
